import Mathlib

set_option linter.unnecessarySeqFocus false
set_option linter.unnecessarySimpa false

/-!
Verification of the core of `dnsrecon_elite.py` (DNSRecon Elite).

The Python source delegates actual DNS traffic to the external `dns.resolver`
library; here the external collaborators are modelled as function parameters:

* a resolver client construction that may fail (`Option ResolveFn`, mirroring
  `dns.resolver.Resolver()` which may raise inside the per-candidate `try`),
* a per-name resolution function `ResolveFn` returning either a list of record
  value strings or an error (timeout / NXDOMAIN / SERVFAIL / malformed
  response, all surfacing as Python exceptions),
* a record-type query function for `get_dns_records`,
* an NS lookup result and a zone-transfer attempt function for
  `check_zone_transfer`,
* a file system `String → ReadResult` for `load_wordlist`.

Python exceptions are modelled with `Except Unit`; a `try/except` block is a
`match` on the `Except` value.  The asyncio semaphore-bounded fan-out of
`brute_force_subdomains` is modelled as a nondeterministic small-step
transition system (`BatchStep`) whose states track the pending, in-flight and
completed candidates; all interleavings permitted by the semaphore are
admitted as schedules.
-/

namespace DNSRecon

/-- Result type of one resolver call: either the list of record value strings
(`[str(answer) for answer in answers]`) or a raised exception. -/
abbrev ResolveFn := String → Except Unit (List String)

/-- One entry appended to `found_subdomains` in `brute_force_subdomains`:
the dict `{'subdomain': full_domain, 'ips': ips, 'type': 'A'}`. -/
structure FoundSubdomain where
  subdomain : String
  ips : List String
  type : String
deriving DecidableEq, Repr

/-- Body of the `try` block of `check_subdomain` (lines 129-145 of the
source): construct a resolver (`dns.resolver.Resolver()`, which may itself
raise — modelled by the `none` client), resolve the A record of the full
domain (which may raise), and append a `FoundSubdomain` exactly when the ip
list is non-empty (`if ips:`). `Except.error` is a raised exception escaping
the `try` body. -/
def check_subdomain_body (mk : Option ResolveFn) (full_domain : String) :
    Except Unit (Option FoundSubdomain) :=
  match mk with
  | none => Except.error ()
  | some resolve =>
    match resolve full_domain with
    | Except.error e => Except.error e
    | Except.ok ips =>
      Except.ok (if ips.isEmpty then none else some ⟨full_domain, ips, "A"⟩)

/-- The inner coroutine `check_subdomain(subdomain)` of
`brute_force_subdomains`: builds `full_domain = f"{subdomain}.{domain}"`,
runs the `try` body, and converts any exception to no outcome
(`except Exception: pass`).  `some entry` is the Resolved outcome appended to
`found_subdomains`; `none` is the Unresolved outcome. -/
def check_subdomain (mk : Option ResolveFn) (domain sub : String) :
    Option FoundSubdomain :=
  match check_subdomain_body mk (sub ++ "." ++ domain) with
  | Except.error _ => none
  | Except.ok r => r

/-- The value returned by `brute_force_subdomains`: the collected
`found_subdomains` list, one task per wordlist entry, each contributing its
entry exactly when resolution produced a non-empty ip list.  (Order of the
sequential schedule; the nondeterministic schedules are treated by
`BatchStep` below.) -/
def brute_force_subdomains (mk : Option ResolveFn) (domain : String)
    (wordlist : List String) : List FoundSubdomain :=
  wordlist.filterMap (check_subdomain mk domain)

/-- The fixed key set of the `records` dict of `get_dns_records`, in
insertion order (lines 101-108 of the source). -/
def record_types : List String := ["A", "AAAA", "CNAME", "MX", "TXT", "NS"]

/-- `get_dns_records(domain)`: for each record type, try one resolution and
keep the answers; on any exception keep the initial empty list
(`except: pass`).  The dict is modelled as an association list in insertion
order. -/
def get_dns_records (resolve : String → String → Except Unit (List String))
    (domain : String) : List (String × List String) :=
  record_types.map fun record_type =>
    (record_type,
      match resolve domain record_type with
      | Except.ok answers => answers
      | Except.error _ => [])

/-- Python `str(ns).rstrip('.')` applied to a nameserver name: remove every
trailing `'.'` character. -/
def strip_dot (s : String) : String :=
  ⟨(s.data.reverse.dropWhile (· == '.')).reverse⟩

/-- The `for ns in ns_records` loop of `check_zone_transfer`: attempt an AXFR
against each nameserver in order; the first successful transfer returns its
node names and stops the loop; any exception advances to the next nameserver
(`except Exception: continue`); exhausting the loop returns `[]`. -/
def xfr_loop (attempt : String → Except Unit (List String)) :
    List String → List String
  | [] => []
  | ns :: rest =>
    match attempt (strip_dot ns) with
    | Except.ok zone_data => zone_data
    | Except.error _ => xfr_loop attempt rest

/-- Ghost-instrumented variant of `xfr_loop` that additionally records, in
order, the nameservers actually contacted (the second component).  Its first
component coincides with `xfr_loop` (`xfr_loop_trace_fst`). -/
def xfr_loop_trace (attempt : String → Except Unit (List String)) :
    List String → List String × List String
  | [] => ([], [])
  | ns :: rest =>
    match attempt (strip_dot ns) with
    | Except.ok zone_data => (zone_data, [strip_dot ns])
    | Except.error _ =>
      let t := xfr_loop_trace attempt rest
      (t.1, strip_dot ns :: t.2)

/-- `check_zone_transfer(domain)`: resolve the NS records (the outer `try`
converts any failure there into a warning and an empty result), then run the
nameserver loop. -/
def check_zone_transfer (resolveNS : Except Unit (List String))
    (attempt : String → Except Unit (List String)) : List String :=
  match resolveNS with
  | Except.error _ => []
  | Except.ok ns_records => xfr_loop attempt ns_records

/-- Outcome of Python `open(filename)` plus reading: the file's lines, a
`FileNotFoundError`, or any other read error (permission denied, path is a
directory, ...). -/
inductive ReadResult where
  | content (lines : List String)
  | fileNotFound
  | otherError
deriving DecidableEq, Repr

/-- Python `line.strip()`: remove leading and trailing whitespace. -/
def strip (s : String) : String :=
  ⟨((s.data.dropWhile Char.isWhitespace).reverse.dropWhile
    Char.isWhitespace).reverse⟩

/-- The embedded default wordlist of `load_wordlist` (line 162). -/
def default_wordlist : List String :=
  ["www", "mail", "ftp", "admin", "api", "blog", "shop", "dev", "test"]

/-- `load_wordlist(filename)`: on a readable file return
`[line.strip() for line in f if line.strip()]`; on `FileNotFoundError`
return the default wordlist; any other exception is not caught and
propagates (`Except.error`). -/
def load_wordlist (fs : String → ReadResult) (filename : String) :
    Except Unit (List String) :=
  match fs filename with
  | ReadResult.content lines =>
    Except.ok (lines.filterMap fun line =>
      if strip line = "" then none else some (strip line))
  | ReadResult.fileNotFound => Except.ok default_wordlist
  | ReadResult.otherError => Except.error ()

/-- The `self.stats` fields that `run_scan` computes at lines 235-240
(`total_queries`, `successful`, `failed`). -/
structure ScanStats where
  total_queries : Int
  successful : Int
  failed : Int
deriving DecidableEq, Repr

/-- The `results` dict assembled by `run_scan` (timestamps and report
formatting are glue and omitted). -/
structure ScanResult where
  domain : String
  dns_records : List (String × List String)
  subdomains : List FoundSubdomain
  zone_transfer : List String
deriving DecidableEq, Repr

/-- `run_scan(domain, wordlist_file, threads)`: gather the record snapshot
and the zone-transfer data, load the wordlist (`load_wordlist(wordlist_file)
if wordlist_file else load_wordlist('subdomains.txt')` — an uncaught
exception there propagates out of `run_scan`), brute force, and fill in the
statistics: `total_queries = len(wordlist)`, `successful = len(subdomains)`,
`failed = total_queries - successful`. -/
def run_scan (fs : String → ReadResult) (mk : Option ResolveFn)
    (rr : String → String → Except Unit (List String))
    (rns : Except Unit (List String))
    (att : String → Except Unit (List String))
    (domain : String) (wordlist_file : Option String) :
    Except Unit (ScanResult × ScanStats) :=
  let dns_records := get_dns_records rr domain
  let zone_data := check_zone_transfer rns att
  match (match wordlist_file with
         | some f => load_wordlist fs f
         | none => load_wordlist fs "subdomains.txt") with
  | Except.error e => Except.error e
  | Except.ok wordlist =>
    let subdomains := brute_force_subdomains mk domain wordlist
    Except.ok (⟨domain, dns_records, subdomains, zone_data⟩,
      ⟨(wordlist.length : Int), (subdomains.length : Int),
        (wordlist.length : Int) - (subdomains.length : Int)⟩)

/-- State of the semaphore-bounded batch of `brute_force_subdomains`:
`pending` are the candidates whose task has not yet acquired the semaphore
(in wordlist order, as `asyncio.gather` creates tasks in order), `running`
are the candidates currently holding a semaphore slot (lookup in flight),
`completed` records in completion order each finished candidate together
with its outcome. -/
structure BatchState where
  pending : List String
  running : List String
  completed : List (String × Option FoundSubdomain)
deriving DecidableEq, Repr

/-- Initial batch state: every wordlist entry pending, nothing in flight. -/
def initState (wordlist : List String) : BatchState :=
  ⟨wordlist, [], []⟩

/-- One scheduler step of the semaphore-bounded batch with outcome function
`f` (instantiated with `check_subdomain mk domain`) and semaphore value
`limit` (the `threads` argument): either the next pending candidate acquires
a free slot (`async with semaphore`, enabled only while fewer than `limit`
lookups are in flight), or some in-flight lookup finishes, releasing its slot
and recording its outcome. -/
inductive BatchStep (f : String → Option FoundSubdomain) (limit : Nat) :
    BatchState → BatchState → Prop
  | start (c : String) (rest running : List String)
      (completed : List (String × Option FoundSubdomain)) :
      running.length < limit →
      BatchStep f limit ⟨c :: rest, running, completed⟩
        ⟨rest, running ++ [c], completed⟩
  | finish (pending l r : List String) (c : String)
      (completed : List (String × Option FoundSubdomain)) :
      BatchStep f limit ⟨pending, l ++ c :: r, completed⟩
        ⟨pending, l ++ r, completed ++ [(c, f c)]⟩

/-- Inductive invariant of the batch: the pending, in-flight and completed
candidates together are a permutation of the wordlist, every completed
candidate carries the outcome `f` assigns to it, and no more than `limit`
lookups are in flight. -/
def BatchInv (f : String → Option FoundSubdomain) (limit : Nat)
    (wordlist : List String) (s : BatchState) : Prop :=
  (s.pending ++ s.running ++ s.completed.map Prod.fst).Perm wordlist ∧
  (∀ p ∈ s.completed, p.2 = f p.1) ∧
  s.running.length ≤ limit

lemma batchInv_init (f : String → Option FoundSubdomain) (limit : Nat)
    (wordlist : List String) : BatchInv f limit wordlist (initState wordlist) := by
  refine ⟨by simp [initState], by simp [initState], by simp [initState]⟩

lemma batchInv_step (f : String → Option FoundSubdomain) (limit : Nat)
    (wordlist : List String) (s t : BatchState)
    (hstep : BatchStep f limit s t) (hinv : BatchInv f limit wordlist s) :
    BatchInv f limit wordlist t := by
  obtain ⟨hperm, hout, hlen⟩ := hinv
  cases hstep with
  | start c rest running completed hlt =>
    refine ⟨?_, hout, by simpa using hlt⟩
    refine List.Perm.trans ?_ hperm
    rw [List.perm_iff_count]
    intro a
    by_cases hac : a = c <;>
      simp [List.count_append, List.count_cons, hac] <;> omega
  | finish pending l r c completed =>
    refine ⟨?_, ?_, ?_⟩
    · refine List.Perm.trans ?_ hperm
      rw [List.perm_iff_count]
      intro a
      by_cases hac : a = c <;>
        simp [List.count_append, List.count_cons, hac] <;> omega
    · intro p hp
      rcases List.mem_append.mp hp with h | h
      · exact hout p h
      · rcases List.mem_singleton.mp h with rfl
        rfl
    · simp only [List.length_append, List.length_cons] at hlen ⊢
      omega

lemma batchInv_reachable (f : String → Option FoundSubdomain) (limit : Nat)
    (wordlist : List String) (s : BatchState)
    (h : Relation.ReflTransGen (BatchStep f limit) (initState wordlist) s) :
    BatchInv f limit wordlist s := by
  induction h with
  | refl => exact batchInv_init f limit wordlist
  | tail hab hstep ih => exact batchInv_step _ _ _ _ _ hstep ih

lemma completed_filterMap_snd (f : String → Option FoundSubdomain)
    (l : List (String × Option FoundSubdomain)) (h : ∀ p ∈ l, p.2 = f p.1) :
    l.filterMap Prod.snd = (l.map Prod.fst).filterMap f := by
  induction l with
  | nil => rfl
  | cons p t ih =>
    have hp := h p (List.mem_cons_self p t)
    have ht : ∀ q ∈ t, q.2 = f q.1 := fun q hq => h q (List.mem_cons_of_mem p hq)
    simp only [List.map_cons, List.filterMap_cons, hp, ih ht]

lemma terminal_completed (f : String → Option FoundSubdomain) (limit : Nat)
    (wordlist : List String) (s : BatchState)
    (h : Relation.ReflTransGen (BatchStep f limit) (initState wordlist) s)
    (hp : s.pending = []) (hr : s.running = []) :
    (s.completed.map Prod.fst).Perm wordlist ∧
    (s.completed.filterMap Prod.snd).Perm (wordlist.filterMap f) := by
  obtain ⟨hperm, hout, -⟩ := batchInv_reachable f limit wordlist s h
  rw [hp, hr] at hperm
  simp only [List.nil_append] at hperm
  refine ⟨hperm, ?_⟩
  rw [completed_filterMap_snd f s.completed hout]
  exact hperm.filterMap f

/-- Deterministic mock resolver client used by concrete witnesses: only
`www.example.com` has an A record. -/
def mkW : Option ResolveFn :=
  some fun n =>
    if n = "www.example.com" then Except.ok ["93.184.216.34"]
    else Except.error ()

/-- A complete sequential schedule of the batch over `["www", "mail"]` with
semaphore limit 1: admit and finish each candidate in turn. -/
lemma chainW :
    Relation.ReflTransGen (BatchStep (check_subdomain mkW "example.com") 1)
      (initState ["www", "mail"])
      ⟨[], [], [("www", check_subdomain mkW "example.com" "www"),
                ("mail", check_subdomain mkW "example.com" "mail")]⟩ := by
  refine Relation.ReflTransGen.head
    (BatchStep.start "www" ["mail"] [] [] (by decide)) ?_
  refine Relation.ReflTransGen.head
    (BatchStep.finish ["mail"] [] [] "www" []) ?_
  refine Relation.ReflTransGen.head
    (BatchStep.start "mail" [] []
      [("www", check_subdomain mkW "example.com" "www")] (by decide)) ?_
  refine Relation.ReflTransGen.head
    (BatchStep.finish [] [] [] "mail"
      [("www", check_subdomain mkW "example.com" "www")]) ?_
  exact Relation.ReflTransGen.refl

/-- A complete overlapped schedule of the same batch with semaphore limit 2:
both candidates in flight together, completing in reversed order. -/
lemma chainW2 :
    Relation.ReflTransGen (BatchStep (check_subdomain mkW "example.com") 2)
      (initState ["www", "mail"])
      ⟨[], [], [("mail", check_subdomain mkW "example.com" "mail"),
                ("www", check_subdomain mkW "example.com" "www")]⟩ := by
  refine Relation.ReflTransGen.head
    (BatchStep.start "www" ["mail"] [] [] (by decide)) ?_
  refine Relation.ReflTransGen.head
    (BatchStep.start "mail" [] ["www"] [] (by decide)) ?_
  refine Relation.ReflTransGen.head
    (BatchStep.finish [] ["www"] [] "mail" []) ?_
  refine Relation.ReflTransGen.head
    (BatchStep.finish [] [] [] "www"
      [("mail", check_subdomain mkW "example.com" "mail")]) ?_
  exact Relation.ReflTransGen.refl

/-- A partial schedule with limit 1: `www` admitted and in flight, `mail`
still queued. -/
lemma chainW1mid :
    Relation.ReflTransGen (BatchStep (check_subdomain mkW "example.com") 1)
      (initState ["www", "mail"]) ⟨["mail"], ["www"], []⟩ :=
  Relation.ReflTransGen.head
    (BatchStep.start "www" ["mail"] [] [] (by decide))
    Relation.ReflTransGen.refl

/-- C1: for every wordlist and every concurrency limit at least 1, every
completed run of the brute-force batch attempts every candidate exactly once
and produces exactly one resolution outcome per candidate — `len(W)` outcomes
in total — regardless of the limit; for the empty wordlist
`brute_force_subdomains` returns the empty list and the completed run records
no outcomes. -/
theorem brute_force_one_outcome_per_candidate (mk : Option ResolveFn)
    (domain : String) (wordlist : List String) (limit : Nat)
    (_hC : 1 ≤ limit) (s : BatchState)
    (hreach : Relation.ReflTransGen (BatchStep (check_subdomain mk domain) limit)
      (initState wordlist) s)
    (hterm : s.pending = [] ∧ s.running = []) :
    (s.completed.map Prod.fst).Perm wordlist ∧
    s.completed.length = wordlist.length ∧
    brute_force_subdomains mk domain [] = [] ∧
    (wordlist = [] → s.completed = []) := by
  obtain ⟨hperm, -⟩ :=
    terminal_completed _ limit wordlist s hreach hterm.1 hterm.2
  refine ⟨hperm, ?_, rfl, ?_⟩
  · simpa using hperm.length_eq
  · rintro rfl
    exact List.map_eq_nil_iff.mp hperm.eq_nil

/-- C1 witness: the concrete sequential run of `["www", "mail"]` with
limit 1. -/
theorem brute_force_one_outcome_per_candidate_witness :
    (([("www", check_subdomain mkW "example.com" "www"),
       ("mail", check_subdomain mkW "example.com" "mail")].map Prod.fst).Perm
        ["www", "mail"]) ∧
    [("www", check_subdomain mkW "example.com" "www"),
     ("mail", check_subdomain mkW "example.com" "mail")].length =
      (["www", "mail"] : List String).length ∧
    brute_force_subdomains mkW "example.com" [] = [] ∧
    ((["www", "mail"] : List String) = [] →
      [("www", check_subdomain mkW "example.com" "www"),
       ("mail", check_subdomain mkW "example.com" "mail")] =
        ([] : List (String × Option FoundSubdomain))) :=
  brute_force_one_outcome_per_candidate mkW "example.com" ["www", "mail"] 1
    (by decide) _ chainW ⟨rfl, rfl⟩

/-- C8: with a deterministic resolver, two completed runs of the brute-force
batch over the same wordlist whose concurrency limits (both at least 1) and
schedules differ produce the same set of Resolved outcomes; each agrees, up
to order, with the sequential `brute_force_subdomains` found list. -/
theorem brute_force_resolved_set_limit_independent (mk : Option ResolveFn)
    (domain : String) (wordlist : List String) (limitA limitB : Nat)
    (_hA : 1 ≤ limitA) (_hB : 1 ≤ limitB) (sA sB : BatchState)
    (hrA : Relation.ReflTransGen (BatchStep (check_subdomain mk domain) limitA)
      (initState wordlist) sA)
    (hrB : Relation.ReflTransGen (BatchStep (check_subdomain mk domain) limitB)
      (initState wordlist) sB)
    (htA : sA.pending = [] ∧ sA.running = [])
    (htB : sB.pending = [] ∧ sB.running = []) :
    (sA.completed.filterMap Prod.snd).Perm (sB.completed.filterMap Prod.snd) ∧
    (sA.completed.filterMap Prod.snd).toFinset =
      (sB.completed.filterMap Prod.snd).toFinset ∧
    (sA.completed.filterMap Prod.snd).Perm
      (brute_force_subdomains mk domain wordlist) := by
  obtain ⟨-, hA2⟩ := terminal_completed _ limitA wordlist sA hrA htA.1 htA.2
  obtain ⟨-, hB2⟩ := terminal_completed _ limitB wordlist sB hrB htB.1 htB.2
  refine ⟨hA2.trans hB2.symm, ?_, hA2⟩
  exact List.toFinset_eq_of_perm _ _ (hA2.trans hB2.symm)

/-- C8 witness: the sequential limit-1 run and the overlapped limit-2 run of
`["www", "mail"]` against the deterministic mock resolver. -/
theorem brute_force_resolved_set_limit_independent_witness :
    ([("www", check_subdomain mkW "example.com" "www"),
      ("mail", check_subdomain mkW "example.com" "mail")].filterMap
        Prod.snd).Perm
      ([("mail", check_subdomain mkW "example.com" "mail"),
        ("www", check_subdomain mkW "example.com" "www")].filterMap
          Prod.snd) ∧
    ([("www", check_subdomain mkW "example.com" "www"),
      ("mail", check_subdomain mkW "example.com" "mail")].filterMap
        Prod.snd).toFinset =
      ([("mail", check_subdomain mkW "example.com" "mail"),
        ("www", check_subdomain mkW "example.com" "www")].filterMap
          Prod.snd).toFinset ∧
    ([("www", check_subdomain mkW "example.com" "www"),
      ("mail", check_subdomain mkW "example.com" "mail")].filterMap
        Prod.snd).Perm
      (brute_force_subdomains mkW "example.com" ["www", "mail"]) :=
  brute_force_resolved_set_limit_independent mkW "example.com"
    ["www", "mail"] 1 2 (by decide) (by decide) _ _ chainW chainW2
    ⟨rfl, rfl⟩ ⟨rfl, rfl⟩

/-- C9: in every reachable state of the batch at most `limit` lookups are in
flight; and whenever a lookup completes while a candidate is still queued,
the completion step is a legal transition and the freed semaphore slot
immediately admits the next queued candidate (the admission step is enabled
right after the completion). -/
theorem brute_force_semaphore_gate (mk : Option ResolveFn) (domain : String)
    (limit : Nat) (wordlist : List String) (s : BatchState)
    (hreach : Relation.ReflTransGen (BatchStep (check_subdomain mk domain) limit)
      (initState wordlist) s) :
    s.running.length ≤ limit ∧
    ∀ nxt rest l r c comp,
      s = ⟨nxt :: rest, l ++ c :: r, comp⟩ →
      BatchStep (check_subdomain mk domain) limit s
        ⟨nxt :: rest, l ++ r, comp ++ [(c, check_subdomain mk domain c)]⟩ ∧
      BatchStep (check_subdomain mk domain) limit
        ⟨nxt :: rest, l ++ r, comp ++ [(c, check_subdomain mk domain c)]⟩
        ⟨rest, (l ++ r) ++ [nxt], comp ++ [(c, check_subdomain mk domain c)]⟩ := by
  obtain ⟨-, -, hlen⟩ := batchInv_reachable _ limit wordlist s hreach
  refine ⟨hlen, ?_⟩
  rintro nxt rest l r c comp rfl
  simp only [List.length_append, List.length_cons] at hlen
  refine ⟨BatchStep.finish _ _ _ _ _, BatchStep.start nxt rest (l ++ r) _ ?_⟩
  simp only [List.length_append]
  omega

/-- C9 witness: with limit 1 and `www` in flight, `mail` queued, completing
`www` is a legal step and the freed slot admits `mail` at once. -/
theorem brute_force_semaphore_gate_witness :
    ((⟨["mail"], ["www"], []⟩ : BatchState).running.length ≤ 1) ∧
    BatchStep (check_subdomain mkW "example.com") 1 ⟨["mail"], ["www"], []⟩
      ⟨["mail"], [], [("www", check_subdomain mkW "example.com" "www")]⟩ ∧
    BatchStep (check_subdomain mkW "example.com") 1
      ⟨["mail"], [], [("www", check_subdomain mkW "example.com" "www")]⟩
      ⟨[], ["mail"], [("www", check_subdomain mkW "example.com" "www")]⟩ := by
  have h := brute_force_semaphore_gate mkW "example.com" 1 ["www", "mail"]
    ⟨["mail"], ["www"], []⟩ chainW1mid
  have h2 := h.2 "mail" [] [] [] "www" [] rfl
  exact ⟨h.1, h2.1, h2.2⟩

/-- C2: a resolution of `sub + "." + domain` returning a non-empty value
list yields a Resolved outcome recorded with that fully-qualified name and
its value list; a raised per-candidate failure or an empty value list yields
Unresolved for that candidate; and a candidate's outcome never aborts the
processing of the candidates around it in the batch. -/
theorem check_subdomain_outcome_classification (resolve : ResolveFn)
    (domain sub : String) (ips : List String) :
    (resolve (sub ++ "." ++ domain) = Except.ok ips → ips ≠ [] →
      check_subdomain (some resolve) domain sub =
        some ⟨sub ++ "." ++ domain, ips, "A"⟩) ∧
    (resolve (sub ++ "." ++ domain) = Except.ok [] →
      check_subdomain (some resolve) domain sub = none) ∧
    (∀ e, resolve (sub ++ "." ++ domain) = Except.error e →
      check_subdomain (some resolve) domain sub = none) ∧
    (∀ pre post,
      brute_force_subdomains (some resolve) domain (pre ++ sub :: post) =
        brute_force_subdomains (some resolve) domain pre ++
          (check_subdomain (some resolve) domain sub).toList ++
          brute_force_subdomains (some resolve) domain post) := by
  refine ⟨?_, ?_, ?_, ?_⟩
  · intro h hne
    simp [check_subdomain, check_subdomain_body, h,
      List.isEmpty_iff, hne]
  · intro h
    simp [check_subdomain, check_subdomain_body, h]
  · intro e h
    simp [check_subdomain, check_subdomain_body, h]
  · intro pre post
    cases h : check_subdomain (some resolve) domain sub <;>
      simp [brute_force_subdomains, List.filterMap_append,
        List.filterMap_cons, h]

/-- Deterministic resolver function used by concrete witnesses: only
`www.example.com` has an A record; every other name raises. -/
def wres : ResolveFn := fun n =>
  if n = "www.example.com" then Except.ok ["93.184.216.34"]
  else Except.error ()

/-- C2 witness: `www` resolves, `mail` fails, and the failing candidate
leaves its neighbours untouched. -/
theorem check_subdomain_outcome_classification_witness :
    check_subdomain (some wres) "example.com" "www" =
      some ⟨"www.example.com", ["93.184.216.34"], "A"⟩ ∧
    check_subdomain (some wres) "example.com" "mail" = none ∧
    brute_force_subdomains (some wres) "example.com" ["mail", "www", "ftp"] =
      brute_force_subdomains (some wres) "example.com" ["mail"] ++
        (check_subdomain (some wres) "example.com" "www").toList ++
        brute_force_subdomains (some wres) "example.com" ["ftp"] := by
  refine ⟨?_, ?_, ?_⟩
  · exact (check_subdomain_outcome_classification wres "example.com" "www"
      ["93.184.216.34"]).1 rfl (by decide)
  · exact (check_subdomain_outcome_classification wres "example.com" "mail"
      []).2.2.1 () rfl
  · exact (check_subdomain_outcome_classification wres "example.com" "www"
      ["93.184.216.34"]).2.2.2 ["mail"] ["ftp"]

/-- C3 counterexample: at the concrete input where the resolver client
cannot be constructed (`mk = none`), no error whatsoever is raised — the
batch returns an empty found list normally — and the per-candidate outcome
is identical to that of an ordinary per-name lookup failure, so the code
raises no distinguishable `ResolverUnavailable` error when the client cannot
be constructed. -/
theorem resolver_unavailable_never_raised :
    brute_force_subdomains none "example.com" ["www", "mail"] = [] ∧
    check_subdomain none "example.com" "www" =
      check_subdomain (some fun _ => Except.error ()) "example.com" "www" :=
  ⟨rfl, rfl⟩

/-- C3 amended: per-candidate lookup exceptions never propagate out of the
brute-force operation — every exception raised in the `try` body, including
failure to construct the resolver client, is caught by the per-candidate
handler and yields Unresolved for that candidate only, never aborting the
others — and `run_scan` propagates no resolver error: the code defines no
`ResolverUnavailable` error kind, treating client-construction failure as a
per-name failure. -/
theorem brute_force_exceptions_never_propagate (mk : Option ResolveFn)
    (domain sub : String) :
    ((∃ e, check_subdomain_body mk (sub ++ "." ++ domain) = Except.error e) →
      check_subdomain mk domain sub = none) ∧
    (mk = none → ∀ s, check_subdomain mk domain s = none) ∧
    (mk = none → ∀ wordlist, brute_force_subdomains mk domain wordlist = []) ∧
    (∀ pre post, check_subdomain mk domain sub = none →
      brute_force_subdomains mk domain (pre ++ sub :: post) =
        brute_force_subdomains mk domain pre ++
          brute_force_subdomains mk domain post) ∧
    (∀ fs rr rns att, fs "subdomains.txt" = ReadResult.fileNotFound →
      ∃ r, run_scan fs mk rr rns att domain none = Except.ok r) := by
  refine ⟨?_, ?_, ?_, ?_, ?_⟩
  · rintro ⟨e, h⟩
    simp [check_subdomain, h]
  · rintro rfl s
    rfl
  · rintro rfl wordlist
    induction wordlist with
    | nil => rfl
    | cons a t ih =>
      simpa [brute_force_subdomains, List.filterMap_cons, check_subdomain,
        check_subdomain_body] using ih
  · intro pre post h
    simp [brute_force_subdomains, List.filterMap_append,
      List.filterMap_cons, h]
  · intro fs rr rns att h
    refine ⟨(⟨domain, get_dns_records rr domain,
      brute_force_subdomains mk domain default_wordlist,
      check_zone_transfer rns att⟩,
      ⟨(default_wordlist.length : Int),
       ((brute_force_subdomains mk domain default_wordlist).length : Int),
       (default_wordlist.length : Int) -
         ((brute_force_subdomains mk domain default_wordlist).length : Int)⟩),
      ?_⟩
    simp [run_scan, load_wordlist, h]

/-- C3 amended witness: with an unconstructible client, the candidate's
outcome is Unresolved, the batch returns normally, and a full scan still
completes with an ok result. -/
theorem brute_force_exceptions_never_propagate_witness :
    check_subdomain none "example.com" "www" = none ∧
    brute_force_subdomains none "example.com" ["www", "mail"] = [] ∧
    (∃ r, run_scan (fun _ => ReadResult.fileNotFound) none
      (fun _ _ => Except.error ()) (Except.error ())
      (fun _ => Except.error ()) "example.com" none = Except.ok r) := by
  have h := brute_force_exceptions_never_propagate none "example.com" "www"
  exact ⟨h.1 ⟨(), rfl⟩, h.2.2.1 rfl ["www", "mail"],
    h.2.2.2.2 _ _ _ _ rfl⟩

/-- C4: the record snapshot's key list is exactly the six fixed record
types in order; each type's entry is determined by its own query alone, a
failed query yielding the empty list for that type without preventing the
others; when every query fails all six keys are still present, each mapped
to the empty list. -/
theorem get_dns_records_snapshot
    (resolve : String → String → Except Unit (List String)) (domain : String) :
    (get_dns_records resolve domain).map Prod.fst =
      ["A", "AAAA", "CNAME", "MX", "TXT", "NS"] ∧
    (∀ rt, rt ∈ record_types →
      (rt, match resolve domain rt with
           | Except.ok answers => answers
           | Except.error _ => []) ∈ get_dns_records resolve domain) ∧
    ((∀ rt, ∃ e, resolve domain rt = Except.error e) →
      get_dns_records resolve domain =
        [("A", []), ("AAAA", []), ("CNAME", []), ("MX", []), ("TXT", []),
         ("NS", [])]) := by
  refine ⟨?_, ?_, ?_⟩
  · simp [get_dns_records, record_types]
  · intro rt hrt
    exact List.mem_map_of_mem _ hrt
  · intro h
    obtain ⟨e1, h1⟩ := h "A"
    obtain ⟨e2, h2⟩ := h "AAAA"
    obtain ⟨e3, h3⟩ := h "CNAME"
    obtain ⟨e4, h4⟩ := h "MX"
    obtain ⟨e5, h5⟩ := h "TXT"
    obtain ⟨e6, h6⟩ := h "NS"
    simp [get_dns_records, record_types, h1, h2, h3, h4, h5, h6]

/-- Record-type resolver that fails on every query, used by witnesses. -/
def wfail : String → String → Except Unit (List String) :=
  fun _ _ => Except.error ()

/-- C4 witness: with every query failing, all six keys are present with
empty values, and the MX entry in particular is the one its own (failed)
query determines. -/
theorem get_dns_records_snapshot_witness :
    ("MX", ([] : List String)) ∈ get_dns_records wfail "example.com" ∧
    get_dns_records wfail "example.com" =
      [("A", []), ("AAAA", []), ("CNAME", []), ("MX", []), ("TXT", []),
       ("NS", [])] := by
  have h := get_dns_records_snapshot wfail "example.com"
  exact ⟨h.2.1 "MX" (by decide), h.2.2 fun rt => ⟨(), rfl⟩⟩

lemma xfr_loop_trace_fst (attempt : String → Except Unit (List String))
    (l : List String) : (xfr_loop_trace attempt l).1 = xfr_loop attempt l := by
  induction l with
  | nil => rfl
  | cons ns rest ih =>
    simp only [xfr_loop_trace, xfr_loop]
    cases attempt (strip_dot ns) <;> simp [ih]

/-- C5: the zone-transfer probe returns the empty result (not an error) when
the NS lookup fails; it tries nameservers sequentially in NS-lookup order and
returns the node names of the first nameserver whose transfer succeeds,
contacting exactly the failing prefix and that nameserver and never a later
one; each failing attempt is non-fatal (the loop advances); and if every
nameserver refuses, the result is empty. -/
theorem check_zone_transfer_first_success
    (attempt : String → Except Unit (List String)) (pre post : List String)
    (s : String) (zone : List String)
    (hpre : ∀ n ∈ pre, ∃ e, attempt (strip_dot n) = Except.error e)
    (hs : attempt (strip_dot s) = Except.ok zone) :
    (∀ e, check_zone_transfer (Except.error e) attempt = []) ∧
    check_zone_transfer (Except.ok (pre ++ s :: post)) attempt = zone ∧
    (xfr_loop_trace attempt (pre ++ s :: post)).2 =
      pre.map strip_dot ++ [strip_dot s] ∧
    (∀ l, (∀ n ∈ l, ∃ e, attempt (strip_dot n) = Except.error e) →
      check_zone_transfer (Except.ok l) attempt = []) := by
  have loop2 : ∀ pre2 : List String,
      (∀ n ∈ pre2, ∃ e, attempt (strip_dot n) = Except.error e) →
      xfr_loop attempt (pre2 ++ s :: post) = zone ∧
      (xfr_loop_trace attempt (pre2 ++ s :: post)).2 =
        pre2.map strip_dot ++ [strip_dot s] := by
    intro pre2
    induction pre2 with
    | nil =>
      intro _
      constructor
      · simp [xfr_loop, hs]
      · simp [xfr_loop_trace, hs]
    | cons n t ih =>
      intro hall
      obtain ⟨e, he⟩ := hall n (List.mem_cons_self n t)
      have iht := ih fun q hq => hall q (List.mem_cons_of_mem n hq)
      constructor
      · simpa [xfr_loop, he] using iht.1
      · simpa [xfr_loop_trace, he] using iht.2
  have loopfail : ∀ l : List String,
      (∀ n ∈ l, ∃ e, attempt (strip_dot n) = Except.error e) →
      xfr_loop attempt l = [] := by
    intro l
    induction l with
    | nil => intro _; rfl
    | cons n t ih =>
      intro hall
      obtain ⟨e, he⟩ := hall n (List.mem_cons_self n t)
      simpa [xfr_loop, he] using ih fun q hq => hall q (List.mem_cons_of_mem n hq)
  obtain ⟨h2, h3⟩ := loop2 pre hpre
  exact ⟨fun e => rfl, h2, h3, fun l hl => loopfail l hl⟩

/-- Zone-transfer attempt function used by the C5 witness: the first
nameserver refuses, the second accepts and exposes two names, the third
would accept and expose another name. -/
def wattempt : String → Except Unit (List String) := fun n =>
  if n = "ns2.example.com" then Except.ok ["a", "b"]
  else if n = "ns3.example.com" then Except.ok ["c"]
  else Except.error ()

/-- C5 witness: nameservers NS1 (refuses), NS2 (accepts, exposes a and b),
NS3 (would accept, exposes c): the result is NS2's data and only NS1 and NS2
are contacted. -/
theorem check_zone_transfer_first_success_witness :
    check_zone_transfer
      (Except.ok ["ns1.example.com.", "ns2.example.com", "ns3.example.com"])
      wattempt = ["a", "b"] ∧
    (xfr_loop_trace wattempt
      ["ns1.example.com.", "ns2.example.com", "ns3.example.com"]).2 =
      ["ns1.example.com", "ns2.example.com"] := by
  have h := check_zone_transfer_first_success wattempt ["ns1.example.com."]
    ["ns3.example.com"] "ns2.example.com" ["a", "b"]
    (by
      intro n hn
      rw [List.mem_singleton] at hn
      subst hn
      exact ⟨(), rfl⟩)
    rfl
  exact ⟨h.2.1, h.2.2.1⟩

lemma run_scan_eq (fs : String → ReadResult) (mk : Option ResolveFn)
    (rr : String → String → Except Unit (List String))
    (rns : Except Unit (List String)) (att : String → Except Unit (List String))
    (domain : String) (wordlist_file : Option String) :
    run_scan fs mk rr rns att domain wordlist_file =
      match (match wordlist_file with
             | some f => load_wordlist fs f
             | none => load_wordlist fs "subdomains.txt") with
      | Except.error e => Except.error e
      | Except.ok wordlist =>
        Except.ok (⟨domain, get_dns_records rr domain,
          brute_force_subdomains mk domain wordlist,
          check_zone_transfer rns att⟩,
          ⟨(wordlist.length : Int),
           ((brute_force_subdomains mk domain wordlist).length : Int),
           (wordlist.length : Int) -
             ((brute_force_subdomains mk domain wordlist).length : Int)⟩) := rfl

/-- C6: whenever a scan completes, its statistics satisfy
`successful + failed = total_queries`, `successful` is the number of
Resolved outcomes (the length of the found-subdomain list), and
`total_queries` is the length of the wordlist the scan loaded. -/
theorem scan_statistics_invariant (fs : String → ReadResult)
    (mk : Option ResolveFn) (rr : String → String → Except Unit (List String))
    (rns : Except Unit (List String)) (att : String → Except Unit (List String))
    (domain : String) (wordlist_file : Option String) (res : ScanResult)
    (stats : ScanStats)
    (h : run_scan fs mk rr rns att domain wordlist_file =
      Except.ok (res, stats)) :
    stats.successful + stats.failed = stats.total_queries ∧
    stats.successful = (res.subdomains.length : Int) ∧
    ∀ wl, (match wordlist_file with
           | some f => load_wordlist fs f
           | none => load_wordlist fs "subdomains.txt") = Except.ok wl →
      stats.total_queries = (wl.length : Int) ∧
      res.subdomains = brute_force_subdomains mk domain wl := by
  rw [run_scan_eq] at h
  generalize hw : (match wordlist_file with
                   | some f => load_wordlist fs f
                   | none => load_wordlist fs "subdomains.txt") = wload at h ⊢
  cases wload with
  | error e => cases h
  | ok wl =>
    have h2 := Except.ok.inj h
    have hres := congrArg Prod.fst h2
    have hstats := congrArg Prod.snd h2
    simp only at hres hstats
    subst hres
    subst hstats
    refine ⟨?_, rfl, ?_⟩
    · show ((brute_force_subdomains mk domain wl).length : Int) +
        ((wl.length : Int) - ((brute_force_subdomains mk domain wl).length : Int)) =
        (wl.length : Int)
      ring
    · intro wl2 hl
      obtain rfl := Except.ok.inj hl
      exact ⟨rfl, rfl⟩

/-- File system with no readable files at all (`FileNotFoundError`
everywhere), used by witnesses. -/
def wfs : String → ReadResult := fun _ => ReadResult.fileNotFound

/-- Zone-transfer attempt that always refuses, used by witnesses. -/
def wax : String → Except Unit (List String) := fun _ => Except.error ()

/-- The scan statistics of the concrete witness scan: nine default-wordlist
candidates, none resolving. -/
def statsW : ScanStats := ⟨9, 0, 9⟩

/-- The scan result of the concrete witness scan: every record query fails,
the NS lookup fails, the client is unconstructible. -/
def resW : ScanResult :=
  ⟨"example.com",
   [("A", []), ("AAAA", []), ("CNAME", []), ("MX", []), ("TXT", []),
    ("NS", [])], [], []⟩

/-- C6 witness: the concrete all-failing scan has statistics 9 = 0 + 9 with
the default wordlist as total. -/
theorem scan_statistics_invariant_witness :
    statsW.successful + statsW.failed = statsW.total_queries ∧
    statsW.successful = (resW.subdomains.length : Int) ∧
    statsW.total_queries = (default_wordlist.length : Int) ∧
    resW.subdomains = brute_force_subdomains none "example.com" default_wordlist := by
  have h := scan_statistics_invariant wfs none wfail (Except.error ()) wax
    "example.com" none resW statsW rfl
  have h3 := h.2.2 default_wordlist rfl
  exact ⟨h.1, h.2.1, h3.1, h3.2⟩

/-- C7 counterexample: a file that exists but cannot be read — any failure
other than `FileNotFoundError`, such as a permission error — makes
`load_wordlist` raise instead of recovering with the embedded default list,
contradicting the claim that every unreadable wordlist file falls back to
the default list. -/
theorem load_wordlist_unreadable_raises :
    load_wordlist (fun _ => ReadResult.otherError) "subdomains.txt" =
      Except.error () ∧
    load_wordlist (fun _ => ReadResult.otherError) "subdomains.txt" ≠
      Except.ok default_wordlist := by
  refine ⟨rfl, ?_⟩
  intro h
  simp [load_wordlist] at h

lemma strip_filter_eq (lines : List String) :
    (lines.filterMap fun line =>
      if strip line = "" then none else some (strip line)) =
      (lines.map strip).filter fun t => t ≠ "" := by
  induction lines with
  | nil => rfl
  | cons a t ih =>
    simp only [List.filterMap_cons, List.map_cons, List.filter_cons]
    by_cases ha : strip a = "" <;> simp [ha, ih]

/-- C7 amended: loading a wordlist returns one stripped label per line that
is non-blank after stripping (blank and whitespace-only lines ignored); a
missing file — `FileNotFoundError`, and only that failure — recovers locally
by returning the embedded default list
`['www','mail','ftp','admin','api','blog','shop','dev','test']`; any other
read failure propagates as an exception instead of falling back. -/
theorem load_wordlist_spec (fs : String → ReadResult) (filename : String) :
    (∀ lines, fs filename = ReadResult.content lines →
      load_wordlist fs filename =
        Except.ok ((lines.map strip).filter fun t => t ≠ "")) ∧
    (fs filename = ReadResult.fileNotFound →
      load_wordlist fs filename =
        Except.ok ["www", "mail", "ftp", "admin", "api", "blog", "shop",
          "dev", "test"]) ∧
    (fs filename = ReadResult.otherError →
      ∃ e, load_wordlist fs filename = Except.error e) := by
  refine ⟨?_, ?_, ?_⟩
  · intro lines h
    simp only [load_wordlist, h]
    rw [strip_filter_eq]
  · intro h
    simp [load_wordlist, h, default_wordlist]
  · intro h
    exact ⟨(), by simp [load_wordlist, h]⟩

/-- File system whose every file holds the lines
`["alpha", "", "  ", "mail"]`, used by witnesses. -/
def wfsC : String → ReadResult :=
  fun _ => ReadResult.content ["alpha", "", "  ", "mail"]

/-- C7 amended witness: a wordlist file with a blank line and a
whitespace-only line loads as the two stripped labels. -/
theorem load_wordlist_spec_witness :
    load_wordlist wfsC "subdomains.txt" = Except.ok ["alpha", "mail"] := by
  have h := (load_wordlist_spec wfsC "subdomains.txt").1
    ["alpha", "", "  ", "mail"] rfl
  exact h

/-- C10: a scan invoked with no wordlist file path does not go straight to
the embedded default list: it loads the file `subdomains.txt`; when that
file exists its stripped non-blank lines are the wordlist the brute force
uses, and only when it is absent does the scan use the embedded default
list. -/
theorem run_scan_wordlist_file_default (fs : String → ReadResult)
    (mk : Option ResolveFn) (rr : String → String → Except Unit (List String))
    (rns : Except Unit (List String)) (att : String → Except Unit (List String))
    (domain : String) :
    (∀ lines, fs "subdomains.txt" = ReadResult.content lines →
      run_scan fs mk rr rns att domain none =
        Except.ok (⟨domain, get_dns_records rr domain,
          brute_force_subdomains mk domain
            (lines.filterMap fun line =>
              if strip line = "" then none else some (strip line)),
          check_zone_transfer rns att⟩,
          ⟨((lines.filterMap fun line =>
              if strip line = "" then none else some (strip line)).length : Int),
           ((brute_force_subdomains mk domain
              (lines.filterMap fun line =>
                if strip line = "" then none else some (strip line))).length :
             Int),
           ((lines.filterMap fun line =>
              if strip line = "" then none else some (strip line)).length :
             Int) -
             ((brute_force_subdomains mk domain
                (lines.filterMap fun line =>
                  if strip line = "" then none else some (strip line))).length :
               Int)⟩)) ∧
    (fs "subdomains.txt" = ReadResult.fileNotFound →
      run_scan fs mk rr rns att domain none =
        Except.ok (⟨domain, get_dns_records rr domain,
          brute_force_subdomains mk domain default_wordlist,
          check_zone_transfer rns att⟩,
          ⟨(default_wordlist.length : Int),
           ((brute_force_subdomains mk domain default_wordlist).length : Int),
           (default_wordlist.length : Int) -
             ((brute_force_subdomains mk domain default_wordlist).length :
               Int)⟩)) := by
  constructor
  · intro lines h
    simp [run_scan, load_wordlist, h]
  · intro h
    simp [run_scan, load_wordlist, h]

/-- C10 witness: with no wordlist file given and an existing
`subdomains.txt` containing `alpha`, a blank line, a whitespace line and
`mail`, the scan uses exactly those two labels (two total queries), not the
nine-label default list. -/
theorem run_scan_wordlist_file_default_witness :
    run_scan wfsC none wfail (Except.error ()) wax "example.com" none =
      Except.ok (⟨"example.com",
        [("A", []), ("AAAA", []), ("CNAME", []), ("MX", []), ("TXT", []),
         ("NS", [])],
        brute_force_subdomains none "example.com" ["alpha", "mail"], []⟩,
        ⟨2, 0, 2⟩) := by
  have h := (run_scan_wordlist_file_default wfsC none wfail (Except.error ())
    wax "example.com").1 ["alpha", "", "  ", "mail"] rfl
  exact h

end DNSRecon
